import Mathlib

/-!
Verification development for the Tuxedo-Cat 3d Spline Model repository
(`src/cat-model.js` and the viewer code embedded in `src/README.md`).

The JavaScript scene graph is shallowly embedded as follows:

* three.js objects with identity (materials, geometries) live in stores
  (`List Material`, `List Geometry`) inside the `CatModel` record; a
  "reference" to such an object is its index in the store, so three.js
  reference equality becomes index equality.
* Meshes/line objects added to the group become `Segment` records (name,
  geometry index, material index, local transform, shadow flags), in the
  exact order the source adds them to `this.group`.
* Numeric values are idealized as real numbers; `Math.sin`, `Math.cos`,
  `Math.PI` become `Real.sin`, `Real.cos`, `Real.pi`.
* The animation methods (`animateIdle`, `animateSit`, `animateStand`) only
  ever touch the body segment's position/rotation/scale and the tail
  segment's rotation, so the state they act on is projected into the
  `PoseState` record; each method is a `PoseState → PoseState` function
  mirroring the field assignments of the source line by line.
-/

namespace CatModelSpec

/-- Components of a 3D vector over a scalar type, mirroring `THREE.Vector3`
(with `α := ℝ`) and the rational-coordinate points of the spec-modelled
tube sweep (with `α := ℚ`). -/
structure Vec3 (α : Type) where
  x : α
  y : α
  z : α
deriving Repr, DecidableEq

/-- Descriptor of the tube geometry produced by
`new THREE.TubeGeometry(curve, tubularSegments, radius, radialSegments, false)`
inside `createSplineTube`: the Catmull-Rom curve is recorded by its control
points. -/
structure TubeGeometryDesc where
  curvePoints : List (Vec3 ℝ)
  tubularSegments : ℕ
  radius : ℝ
  radialSegments : ℕ
  closed : Bool

/-- Embedding of `CatModel.createSplineTube(points, radius, radialSegments,
tubularSegments)`: builds a `CatmullRomCurve3` over `points` and a
`TubeGeometry` with the given segment counts and radius, passing `false`
for the `closed` parameter. -/
def createSplineTube (points : List (Vec3 ℝ)) (radius : ℝ)
    (radialSegments : ℕ) (tubularSegments : ℕ) : TubeGeometryDesc :=
  { curvePoints := points
    tubularSegments := tubularSegments
    radius := radius
    radialSegments := radialSegments
    closed := false }

/-- State of one three.js material instance. Fields not passed to the
constructor hold the three.js defaults (`roughness` 1, `metalness` 0,
`emissive` 0x000000, `emissiveIntensity` 1, `opacity` 1, `transparent`
false, `wireframe` false). `isLineBasic` distinguishes the
`LineBasicMaterial` used for whiskers; `normalMapApplied`/`needsUpdate`
record the mutation done by `addFurDetails`. -/
structure Material where
  color : ℕ
  roughness : ℚ
  metalness : ℚ
  normalScale : Option (ℚ × ℚ)
  emissive : ℕ
  emissiveIntensity : ℚ
  opacity : ℚ
  transparent : Bool
  wireframe : Bool
  isLineBasic : Bool
  normalMapApplied : Bool
  needsUpdate : Bool
deriving Repr, DecidableEq, Inhabited

/-- Geometry descriptors for the primitive geometries the source constructs.
`scaled` records a geometry-level `geometry.scale(x, y, z)` call (used for
the shared paw geometry); `lineBuffer` records the whisker
`BufferGeometry` by its flat position array. -/
inductive Geometry where
  | sphere (radius : ℚ) (widthSegments heightSegments : ℕ)
  | sphereSlice (radius : ℚ) (widthSegments heightSegments : ℕ)
      (phiStart phiLength thetaStart thetaLength : ℝ)
  | cone (radius height : ℚ) (radialSegments : ℕ)
  | tube (desc : TubeGeometryDesc)
  | lineBuffer (positions : List ℝ)
  | scaled (base : Geometry) (sx sy sz : ℚ)

/-- Local transform of a scene-graph object: position, Euler rotation and
scale, with the three.js defaults position 0, rotation 0, scale 1. -/
structure Transform where
  position : Vec3 ℝ
  rotation : Vec3 ℝ
  scale : Vec3 ℝ

/-- Identity transform, the state of a fresh `THREE.Mesh`. -/
noncomputable def Transform.default : Transform :=
  { position := ⟨0, 0, 0⟩, rotation := ⟨0, 0, 0⟩, scale := ⟨1, 1, 1⟩ }

/-- One mesh (or line object) added to `this.group`: the `name` is a label
for the source-code variable it came from, `geometryId`/`materialId` are
indices into the geometry and material stores (three.js object references),
and the shadow flags mirror `castShadow`/`receiveShadow`. -/
structure Segment where
  name : String
  geometryId : ℕ
  materialId : ℕ
  transform : Transform
  castShadow : Bool
  receiveShadow : Bool

/-- Cloning a mesh (`mesh.clone()`): the clone shares the geometry and
material references and gets an independent copy of the transform. -/
def Segment.cloneAs (s : Segment) (newName : String) : Segment :=
  { s with name := newName }

/-- The scene-graph state owned by the `CatModel` class: the stores of
material and geometry instances created so far, and the segments added to
`this.group` in order. -/
structure CatModel where
  materials : List Material
  geometries : List Geometry
  segments : List Segment

/-- Index (reference) of `blackFurMaterial`, the first material created by
`createMaterials`. -/
def blackFurId : ℕ := 0

/-- Index of `whiteFurMaterial`. -/
def whiteFurId : ℕ := 1

/-- Index of `eyeMaterial`. -/
def eyeId : ℕ := 2

/-- Index of `noseMaterial`. -/
def noseId : ℕ := 3

/-- Index of `innerEarMaterial`. -/
def innerEarId : ℕ := 4

/-- Index of `whiskerMaterial`. -/
def whiskerId : ℕ := 5

/-- Index of the anonymous `pupilMaterial` created inside `createEyes`
(the seventh material instance; it belongs to none of the six named
roles). -/
def pupilMaterialId : ℕ := 6

/-- Embedding of `createMaterials()`: the six role materials, in creation
order black fur, white fur, eye, nose, inner ear, whisker line. -/
def createMaterials : List Material :=
  [ -- blackFurMaterial: color 0x1a1a1a, roughness 0.6, metalness 0.1,
    -- normalScale (0.5, 0.5)
    { color := 0x1a1a1a, roughness := 0.6, metalness := 0.1
      normalScale := some (0.5, 0.5), emissive := 0x000000
      emissiveIntensity := 1, opacity := 1, transparent := false
      wireframe := false, isLineBasic := false
      normalMapApplied := false, needsUpdate := false },
    -- whiteFurMaterial: color 0xffffff, roughness 0.6, metalness 0.1
    { color := 0xffffff, roughness := 0.6, metalness := 0.1
      normalScale := some (0.5, 0.5), emissive := 0x000000
      emissiveIntensity := 1, opacity := 1, transparent := false
      wireframe := false, isLineBasic := false
      normalMapApplied := false, needsUpdate := false },
    -- eyeMaterial: gold, shiny, emissive 0xffaa00 at intensity 0.2
    { color := 0xffd700, roughness := 0.2, metalness := 0
      normalScale := none, emissive := 0xffaa00
      emissiveIntensity := 0.2, opacity := 1, transparent := false
      wireframe := false, isLineBasic := false
      normalMapApplied := false, needsUpdate := false },
    -- noseMaterial: pink
    { color := 0xffb6c1, roughness := 0.4, metalness := 0.1
      normalScale := none, emissive := 0x000000
      emissiveIntensity := 1, opacity := 1, transparent := false
      wireframe := false, isLineBasic := false
      normalMapApplied := false, needsUpdate := false },
    -- innerEarMaterial
    { color := 0xffb6c1, roughness := 0.6, metalness := 0
      normalScale := none, emissive := 0x000000
      emissiveIntensity := 1, opacity := 1, transparent := false
      wireframe := false, isLineBasic := false
      normalMapApplied := false, needsUpdate := false },
    -- whiskerMaterial: LineBasicMaterial, translucent
    { color := 0xdddddd, roughness := 1, metalness := 0
      normalScale := none, emissive := 0x000000
      emissiveIntensity := 1, opacity := 0.6, transparent := true
      wireframe := false, isLineBasic := true
      normalMapApplied := false, needsUpdate := false } ]

/-- State of the model right after the constructor line
`this.materials = this.createMaterials()`, before `buildCat()`. -/
def initialModel : CatModel :=
  { materials := createMaterials, geometries := [], segments := [] }

/-- Adds a freshly constructed geometry to the store and a mesh over it to
the group (the common `new Geometry… / new Mesh… / group.add` pattern); the
new geometry's reference is the store length before insertion. -/
def addMesh (m : CatModel) (name : String) (g : Geometry) (matId : ℕ)
    (tr : Transform) (cast recv : Bool) : CatModel :=
  { m with
    geometries := m.geometries ++ [g]
    segments := m.segments ++
      [{ name := name, geometryId := m.geometries.length, materialId := matId
         transform := tr, castShadow := cast, receiveShadow := recv }] }

/-- Adds an already-built segment (used for clones, which reuse an existing
geometry reference). -/
def addSegment (m : CatModel) (s : Segment) : CatModel :=
  { m with segments := m.segments ++ [s] }

/-- Embedding of `createBody()`: black main body sphere (stored as
`this.body`, segment index 0) and the white chest patch slice. -/
noncomputable def createBody (m : CatModel) : CatModel :=
  let m := addMesh m "body" (.sphere 0.55 32 32) blackFurId
    { position := ⟨0, 0.6, 0.1⟩, rotation := ⟨0, 0, 0⟩
      scale := ⟨0.85, 0.8, 1.3⟩ } true true
  addMesh m "chest"
    (.sphereSlice 0.4 32 16 0 (Real.pi * 2) 0 (Real.pi * 0.5)) whiteFurId
    { position := ⟨0, 0.5, 0.55⟩, rotation := ⟨-(Real.pi / 4), 0, 0⟩
      scale := ⟨0.7, 0.8, 0.5⟩ } true true

/-- Embedding of `createHead()`: black head sphere (stored as `this.head`),
white muzzle sphere, white forehead blaze cone. -/
noncomputable def createHead (m : CatModel) : CatModel :=
  let m := addMesh m "head" (.sphere 0.38 32 32) blackFurId
    { position := ⟨0, 0.95, 1.2⟩, rotation := ⟨0, 0, 0⟩
      scale := ⟨1, 0.9, 0.9⟩ } true true
  let m := addMesh m "snout" (.sphere 0.16 24 24) whiteFurId
    { position := ⟨0, 0.82, 1.48⟩, rotation := ⟨0, 0, 0⟩
      scale := ⟨1.1, 0.8, 1.0⟩ } true true
  addMesh m "blaze" (.cone 0.08 0.3 16) whiteFurId
    { position := ⟨0, 1.1, 1.45⟩, rotation := ⟨-0.5, 0, 0⟩
      scale := ⟨1, 1, 0.5⟩ } false true

/-- Embedding of `createEars()`: the left outer/inner ears are fresh meshes;
the right ones are `clone()`s of the left ones with the position reset to a
mirrored x, `rotation.z` flipped to `0.4` and (for the outer ear)
`castShadow`/`receiveShadow` reassigned to `true`. -/
noncomputable def createEars (m : CatModel) : CatModel :=
  let leftEar : Segment :=
    { name := "leftEar", geometryId := m.geometries.length
      materialId := blackFurId
      transform := { position := ⟨-0.25, 1.25, 1.15⟩
                     rotation := ⟨0.2, 0, -0.4⟩, scale := ⟨1, 1, 1⟩ }
      castShadow := true, receiveShadow := true }
  let leftInnerEar : Segment :=
    { name := "leftInnerEar", geometryId := m.geometries.length + 1
      materialId := innerEarId
      transform := { position := ⟨-0.25, 1.25, 1.22⟩
                     rotation := ⟨0.2, 0, -0.4⟩, scale := ⟨1, 1, 1⟩ }
      castShadow := true, receiveShadow := false }
  let rightEarBase := leftEar.cloneAs "rightEar"
  let rightEar : Segment :=
    { rightEarBase with
      transform := { rightEarBase.transform with
                     position := ⟨0.25, 1.25, 1.15⟩
                     rotation := { rightEarBase.transform.rotation with
                                   z := 0.4 } }
      castShadow := true, receiveShadow := true }
  let rightInnerEarBase := leftInnerEar.cloneAs "rightInnerEar"
  let rightInnerEar : Segment :=
    { rightInnerEarBase with
      transform := { rightInnerEarBase.transform with
                     position := ⟨0.25, 1.25, 1.22⟩
                     rotation := { rightInnerEarBase.transform.rotation with
                                   z := 0.4 } }
      castShadow := true }
  let m := { m with
    geometries := m.geometries ++ [.cone 0.12 0.3 16, .cone 0.06 0.2 16] }
  let m := addSegment m leftEar
  let m := addSegment m leftInnerEar
  let m := addSegment m rightEar
  addSegment m rightInnerEar

/-- Control points of the front-leg curve (`legPointsFront`). -/
noncomputable def legPointsFront : List (Vec3 ℝ) :=
  [⟨0, 0, 0⟩, ⟨0, -0.25, 0.05⟩, ⟨0, -0.45, 0⟩]

/-- Control points of the back-leg curve (`legPointsBack`). -/
noncomputable def legPointsBack : List (Vec3 ℝ) :=
  [⟨0, 0, 0⟩, ⟨0, -0.2, -0.1⟩, ⟨0, -0.4, 0⟩]

/-- Control points of the tail curve (`tailPoints`). -/
noncomputable def tailPoints : List (Vec3 ℝ) :=
  [⟨0, 0.5, -1.1⟩, ⟨0, 0.7, -1.6⟩, ⟨0.2, 1.1, -1.9⟩, ⟨0.4, 1.5, -2.0⟩]

/-- Embedding of `createPaws()`: one shared scaled paw geometry, four white
paw meshes over it at the four leg positions. -/
noncomputable def createPaws (m : CatModel) : CatModel :=
  let gId := m.geometries.length
  let m := { m with
    geometries := m.geometries ++ [.scaled (.sphere 0.12 16 16) 1 0.7 1.2] }
  let mk : String → ℝ → ℝ → ℝ → Segment := fun name px py pz =>
    { name := name, geometryId := gId, materialId := whiteFurId
      transform := { position := ⟨px, py, pz⟩, rotation := ⟨0, 0, 0⟩
                     scale := ⟨1, 1, 1⟩ }
      castShadow := true, receiveShadow := true }
  let m := addSegment m (mk "pawFrontLeft" (-0.35) 0.05 0.8)
  let m := addSegment m (mk "pawFrontRight" 0.35 0.05 0.8)
  let m := addSegment m (mk "pawBackLeft" (-0.4) 0.05 (-0.3))
  addSegment m (mk "pawBackRight" 0.4 0.05 (-0.3))

/-- Embedding of `createLegs()`: one front-leg tube geometry shared by the
two front legs (the right one a `clone()` of the left), one back-leg tube
geometry shared by the two back legs, then `createPaws()`. -/
noncomputable def createLegs (m : CatModel) : CatModel :=
  let frontGeomId := m.geometries.length
  let m := { m with
    geometries := m.geometries ++
      [.tube (createSplineTube legPointsFront 0.09 12 32)] }
  let frontLeftLeg : Segment :=
    { name := "frontLeftLeg", geometryId := frontGeomId
      materialId := blackFurId
      transform := { position := ⟨-0.35, 0.55, 0.8⟩, rotation := ⟨0, 0, 0⟩
                     scale := ⟨1, 1, 1⟩ }
      castShadow := true, receiveShadow := true }
  let m := addSegment m frontLeftLeg
  let frontRightBase := frontLeftLeg.cloneAs "frontRightLeg"
  let m := addSegment m
    { frontRightBase with
      transform := { frontRightBase.transform with
                     position := ⟨0.35, 0.55, 0.8⟩ } }
  let backGeomId := m.geometries.length
  let m := { m with
    geometries := m.geometries ++
      [.tube (createSplineTube legPointsBack 0.11 12 32)] }
  let backLeftLeg : Segment :=
    { name := "backLeftLeg", geometryId := backGeomId
      materialId := blackFurId
      transform := { position := ⟨-0.4, 0.45, -0.4⟩
                     rotation := ⟨-0.3, 0, 0⟩, scale := ⟨1, 1, 1⟩ }
      castShadow := true, receiveShadow := true }
  let m := addSegment m backLeftLeg
  let backRightBase := backLeftLeg.cloneAs "backRightLeg"
  let m := addSegment m
    { backRightBase with
      transform := { backRightBase.transform with
                     position := ⟨0.4, 0.45, -0.4⟩ } }
  createPaws m

/-- Embedding of `createTail()`: the tail tube (stored as `this.tail`, left
at the default transform) and the white tail tip sphere. -/
noncomputable def createTail (m : CatModel) : CatModel :=
  let m := addMesh m "tail" (.tube (createSplineTube tailPoints 0.12 12 64))
    blackFurId Transform.default true true
  addMesh m "tailTip" (.sphere 0.11 16 16) whiteFurId
    { position := ⟨0.4, 1.5, -2.0⟩, rotation := ⟨0, 0, 0⟩
      scale := ⟨1, 1, 1⟩ } true false

/-- Embedding of `createEyes()`: gold eye spheres and black pupils. The
pupil material is a fresh anonymous `MeshStandardMaterial` (color 0x000000,
roughness 0) created here — the seventh material instance. The right eye
and right pupil are `clone()`s of the left ones with positions reset and
(for the eye) `rotation.y` flipped to `-0.2`. -/
noncomputable def createEyes (m : CatModel) : CatModel :=
  let eyeGeomId := m.geometries.length
  let pupilGeomId := m.geometries.length + 1
  let m := { m with
    geometries := m.geometries ++ [.sphere 0.09 24 24, .sphere 0.05 16 16]
    materials := m.materials ++
      [{ color := 0x000000, roughness := 0, metalness := 0
         normalScale := none, emissive := 0x000000
         emissiveIntensity := 1, opacity := 1, transparent := false
         wireframe := false, isLineBasic := false
         normalMapApplied := false, needsUpdate := false }] }
  let leftEye : Segment :=
    { name := "leftEye", geometryId := eyeGeomId, materialId := eyeId
      transform := { position := ⟨-0.16, 0.95, 1.48⟩
                     rotation := ⟨0, 0.2, 0⟩, scale := ⟨1, 1, 1⟩ }
      castShadow := true, receiveShadow := false }
  let leftPupil : Segment :=
    { name := "leftPupil", geometryId := pupilGeomId
      materialId := pupilMaterialId
      transform := { position := ⟨-0.16, 0.95, 1.56⟩
                     rotation := ⟨0, 0, 0⟩, scale := ⟨0.8, 1.2, 0.5⟩ }
      castShadow := false, receiveShadow := false }
  let m := addSegment m leftEye
  let m := addSegment m leftPupil
  let rightEyeBase := leftEye.cloneAs "rightEye"
  let m := addSegment m
    { rightEyeBase with
      transform := { rightEyeBase.transform with
                     position := ⟨0.16, 0.95, 1.48⟩
                     rotation := { rightEyeBase.transform.rotation with
                                   y := -0.2 } }
      castShadow := true }
  let rightPupilBase := leftPupil.cloneAs "rightPupil"
  addSegment m
    { rightPupilBase with
      transform := { rightPupilBase.transform with
                     position := ⟨0.16, 0.95, 1.56⟩ } }

/-- Embedding of `createNose()`: the small pink nose sphere. -/
noncomputable def createNose (m : CatModel) : CatModel :=
  addMesh m "nose" (.sphere 0.04 16 16) noseId
    { position := ⟨0, 0.88, 1.63⟩, rotation := ⟨0, 0, 0⟩
      scale := ⟨1, 0.8, 0.5⟩ } true false

/-- Whisker endpoint position array built by the two loops of
`createWhiskers()` (`whiskerCount = 6`, `whiskerLength = 0.35`): for each
strand, the near-nose anchor followed by the outward tip. -/
noncomputable def whiskerPositions : List ℝ :=
  ((List.range 6).flatMap fun i =>
    let yOffset : ℝ := ((i : ℝ) - 6 / 2) * 0.02
    let angle : ℝ := 0.2 + (i : ℝ) * 0.1
    [-0.1, 0.85 + yOffset, 1.55,
     -0.1 - Real.cos angle * 0.35, 0.85 + yOffset + Real.sin angle * 0.1,
     1.55 + Real.sin angle * 0.1]) ++
  ((List.range 6).flatMap fun i =>
    let yOffset : ℝ := ((i : ℝ) - 6 / 2) * 0.02
    let angle : ℝ := 0.2 + (i : ℝ) * 0.1
    [0.1, 0.85 + yOffset, 1.55,
     0.1 + Real.cos angle * 0.35, 0.85 + yOffset + Real.sin angle * 0.1,
     1.55 + Real.sin angle * 0.1])

/-- Embedding of `createWhiskers()`: a single `LineSegments` object over a
buffer geometry holding all whisker endpoints, using the shared whisker
line material. -/
noncomputable def createWhiskers (m : CatModel) : CatModel :=
  addMesh m "whiskers" (.lineBuffer whiskerPositions) whiskerId
    Transform.default false false

/-- Embedding of `addFurDetails()` as far as material state is concerned:
the procedurally painted canvas normal map (an external canvas-API effect
with an unseeded random source, out of this embedding's scope) is assigned
to both fur materials and `needsUpdate` is raised on them; no other
material and no segment is touched. -/
def addFurDetails (m : CatModel) : CatModel :=
  let m := { m with
    materials := m.materials.set blackFurId
      { (m.materials.getD blackFurId default) with
        normalMapApplied := true, needsUpdate := true } }
  { m with
    materials := m.materials.set whiteFurId
      { (m.materials.getD whiteFurId default) with
        normalMapApplied := true, needsUpdate := true } }

/-- The fully constructed figure: `constructor()` runs `createMaterials`
and then `buildCat()`, which calls the region builders in the fixed order
body, head, ears, legs (with paws), tail, eyes, nose, whiskers, fur
details. -/
noncomputable def builtCat : CatModel :=
  addFurDetails (createWhiskers (createNose (createEyes (createTail
    (createLegs (createEars (createHead (createBody initialModel))))))))

/-- Embedding of `setFurColor(color)`:
`this.materials.blackFurMaterial.color.setHex(color)` — overwrites the base
color of the shared black-fur material instance in place. -/
def setFurColor (c : ℕ) (m : CatModel) : CatModel :=
  { m with
    materials := m.materials.set blackFurId
      { (m.materials.getD blackFurId default) with color := c } }

/-- Embedding of `toggleWireframe(enabled)`: assigns the `wireframe` flag
of the black-fur material, then of the white-fur material. -/
def toggleWireframe (enabled : Bool) (m : CatModel) : CatModel :=
  let m := { m with
    materials := m.materials.set blackFurId
      { (m.materials.getD blackFurId default) with wireframe := enabled } }
  { m with
    materials := m.materials.set whiteFurId
      { (m.materials.getD whiteFurId default) with wireframe := enabled } }

/-- Overwriting the local transform of the segment at index `i` — the
"future mutation of one twin" operation of the clone-then-reposition
pattern (in three.js, assigning to `mesh.position`/`mesh.rotation`). -/
def setSegmentTransform (i : ℕ) (tr : Transform) (m : CatModel) : CatModel :=
  { m with
    segments := m.segments.set i
      { (m.segments.getD i
          { name := "", geometryId := 0, materialId := 0
            transform := tr, castShadow := false
            receiveShadow := false }) with transform := tr } }

/-- Projection of the figure state touched by the animation methods: the
body segment's position, rotation and scale and the tail segment's
rotation (the source guards `if (this.body)` / `if (this.tail)` always hold
after construction, where both references are assigned). -/
structure PoseState where
  bodyPosition : Vec3 ℝ
  bodyRotation : Vec3 ℝ
  bodyScale : Vec3 ℝ
  tailRotation : Vec3 ℝ

/-- Pose of the freshly constructed figure: the body transform set by
`createBody` and the tail's default rotation from `createTail`. -/
noncomputable def initialPose : PoseState :=
  { bodyPosition := ⟨0, 0.6, 0.1⟩
    bodyRotation := ⟨0, 0, 0⟩
    bodyScale := ⟨0.85, 0.8, 1.3⟩
    tailRotation := ⟨0, 0, 0⟩ }

/-- Embedding of `animateIdle(time)`: sets the body's vertical scale to
`0.8 + Math.sin(time * 2) * 0.01` and the tail's x/y rotation to the two
independent oscillations — all absolute assignments. -/
noncomputable def animateIdle (time : ℝ) (s : PoseState) : PoseState :=
  { s with
    bodyScale := { s.bodyScale with y := 0.8 + Real.sin (time * 2) * 0.01 }
    tailRotation := { s.tailRotation with
                      x := Real.sin (time * 1.5) * 0.08
                      y := Real.cos (time * 1) * 0.05 } }

/-- Embedding of `animateSit()`: sets `body.position.y = 0.5` and
`body.rotation.x = 0.25`. -/
noncomputable def animateSit (s : PoseState) : PoseState :=
  { s with
    bodyPosition := { s.bodyPosition with y := 0.5 }
    bodyRotation := { s.bodyRotation with x := 0.25 } }

/-- Embedding of `animateStand()`: sets `body.position.y = 0.6` and
`body.rotation.x = 0`. -/
noncomputable def animateStand (s : PoseState) : PoseState :=
  { s with
    bodyPosition := { s.bodyPosition with y := 0.6 }
    bodyRotation := { s.bodyRotation with x := 0 } }

/-- Embedding of the viewer's `updateAnimation()` switch (in the main
script embedded in `src/README.md`): `'sit'` runs `animateSit()`, `'stand'`
runs `animateStand()`, and both the `'idle'` case and the `default` case
fall through to `animateStand()`. -/
noncomputable def updateAnimation (mode : String) (s : PoseState) :
    PoseState :=
  if mode = "sit" then animateSit s
  else if mode = "stand" then animateStand s
  else animateStand s

/-- Squared distance between two points
(three.js `Vector3.distanceToSquared`). -/
noncomputable def distSq (a b : Vec3 ℝ) : ℝ :=
  (a.x - b.x) ^ 2 + (a.y - b.y) ^ 2 + (a.z - b.z) ^ 2

/-- Fourth root, the centripetal parameterization's
`Math.pow(distanceSquared, 0.25)` (its argument is always a squared
distance, hence nonnegative, where the two expressions agree). -/
noncomputable def pow025 (x : ℝ) : ℝ := Real.sqrt (Real.sqrt x)

/-- Extrapolated phantom endpoint
`tmp.subVectors(pa, pb).add(pa)` = `2 * pa - pb`, used by
`CatmullRomCurve3.getPoint` before the first and after the last control
point of a non-closed curve. -/
noncomputable def vextrapolate (pa pb : Vec3 ℝ) : Vec3 ℝ :=
  ⟨2 * pa.x - pb.x, 2 * pa.y - pb.y, 2 * pa.z - pb.z⟩

/-- Tangent pair of three.js `CubicPoly.initNonuniformCatmullRom`: the two
endpoint tangents of the nonuniform Catmull-Rom segment, each rescaled by
`dt1`. -/
noncomputable def cubicInitNonuniform (x0 x1 x2 x3 dt0 dt1 dt2 : ℝ) :
    ℝ × ℝ :=
  (((x1 - x0) / dt0 - (x2 - x0) / (dt0 + dt1) + (x2 - x1) / dt1) * dt1,
   ((x2 - x1) / dt1 - (x3 - x1) / (dt1 + dt2) + (x3 - x2) / dt2) * dt1)

/-- Cubic Hermite evaluation of three.js `CubicPoly`: coefficients
`c0 = x0`, `c1 = t0`, `c2 = -3 x0 + 3 x1 - 2 t0 - t1`,
`c3 = 2 x0 - 2 x1 + t0 + t1`, evaluated at `w`. -/
noncomputable def cubicCalc (x0 x1 t0 t1 w : ℝ) : ℝ :=
  x0 + t0 * w + (-3 * x0 + 3 * x1 - 2 * t0 - t1) * w ^ 2 +
    (2 * x0 - 2 * x1 + t0 + t1) * w ^ 3

open scoped Classical in
/-- Embedding of `THREE.CatmullRomCurve3.getPoint(t)` for the curves built
by `createSplineTube` (constructor defaults inlined: `closed = false`,
`curveType = 'centripetal'`, so the centripetal branch with exponent
`0.25` and the `1e-4` degenerate-spacing guards apply). -/
noncomputable def getPointCR (points : List (Vec3 ℝ)) (t : ℝ) : Vec3 ℝ :=
  let l : ℕ := points.length
  let p : ℝ := ((l : ℝ) - 1) * t
  let ip : ℤ := ⌊p⌋
  let wRaw : ℝ := p - (ip : ℝ)
  let adjust : Prop := wRaw = 0 ∧ ip = (l : ℤ) - 1
  let intPoint : ℤ := if adjust then (l : ℤ) - 2 else ip
  let weight : ℝ := if adjust then 1 else wRaw
  let pointAt : ℤ → Vec3 ℝ := fun i =>
    points.getD (i % (l : ℤ)).toNat ⟨0, 0, 0⟩
  let p0 : Vec3 ℝ :=
    if 0 < intPoint then pointAt (intPoint - 1)
    else vextrapolate (points.getD 0 ⟨0, 0, 0⟩) (points.getD 1 ⟨0, 0, 0⟩)
  let p1 := pointAt intPoint
  let p2 := pointAt (intPoint + 1)
  let p3 : Vec3 ℝ :=
    if intPoint + 2 < (l : ℤ) then pointAt (intPoint + 2)
    else vextrapolate (points.getD (l - 1) ⟨0, 0, 0⟩)
      (points.getD (l - 2) ⟨0, 0, 0⟩)
  let dt1Raw := pow025 (distSq p1 p2)
  let dt0Raw := pow025 (distSq p0 p1)
  let dt2Raw := pow025 (distSq p2 p3)
  let dt1 := if dt1Raw < 1e-4 then 1 else dt1Raw
  let dt0 := if dt0Raw < 1e-4 then dt1 else dt0Raw
  let dt2 := if dt2Raw < 1e-4 then dt1 else dt2Raw
  let tx := cubicInitNonuniform p0.x p1.x p2.x p3.x dt0 dt1 dt2
  let ty := cubicInitNonuniform p0.y p1.y p2.y p3.y dt0 dt1 dt2
  let tz := cubicInitNonuniform p0.z p1.z p2.z p3.z dt0 dt1 dt2
  ⟨cubicCalc p1.x p2.x tx.1 tx.2 weight,
   cubicCalc p1.y p2.y ty.1 ty.2 weight,
   cubicCalc p1.z p2.z tz.1 tz.2 weight⟩

/-- Modelled from the spec: the default direction substituted for a
zero-length tangent by the tube-sweep routine (the sweep itself —
three.js `TubeGeometry`/`FrenetFrames` — is library code not under
`src/`). -/
def fallbackTangent : Vec3 ℚ := ⟨0, 0, 1⟩

/-- Modelled from the spec: tangent of one centerline step of the sweep;
degenerate (duplicate) consecutive points would give a zero-length tangent,
which is guarded by falling back to the deterministic default axis. -/
def segTangent (a b : Vec3 ℚ) : Vec3 ℚ :=
  let d : Vec3 ℚ := ⟨b.x - a.x, b.y - a.y, b.z - a.z⟩
  if d = ⟨0, 0, 0⟩ then fallbackTangent else d

/-- Modelled from the spec: the per-step tangents of the sweep frame
construction along the sampled centerline. -/
def sweepTangents : List (Vec3 ℚ) → List (Vec3 ℚ)
  | a :: b :: rest => segTangent a b :: sweepTangents (b :: rest)
  | _ => []

/-- Modelled from the spec: the geometry produced by the tube-sweep
routine — centerline samples, the (guarded, hence nonzero) frame tangents,
and the cross-section radius. -/
structure SweptTube where
  centerline : List (Vec3 ℚ)
  tangents : List (Vec3 ℚ)
  radius : ℚ
deriving Repr, DecidableEq

/-- Modelled from the spec: the tube-sweep routine
(`buildCurveTubeSegment`'s sweep, realized in the repository by the
external `THREE.TubeGeometry`, which is not under `src/`): it requires at
least two control points and otherwise always produces a geometry,
substituting the default axis wherever a tangent degenerates. -/
def tubeSweep (pts : List (Vec3 ℚ)) (radius : ℚ) : Option SweptTube :=
  if pts.length < 2 then none
  else some
    { centerline := pts, tangents := sweepTangents pts, radius := radius }

/-- C1: for every pair of elapsed-time values `t1 < t2`, running
`animateIdle(t1)` and then `animateIdle(t2)` on a freshly constructed
figure leaves the body's vertical scale and the tail's rotation exactly
equal to the values produced by `animateIdle(t2)` alone on a freshly
constructed figure — each call sets absolute values, so no drift
accumulates. -/
theorem animateIdle_no_drift (t1 t2 : ℝ) (h : t1 < t2) :
    (animateIdle t2 (animateIdle t1 initialPose)).bodyScale.y =
      (animateIdle t2 initialPose).bodyScale.y ∧
    (animateIdle t2 (animateIdle t1 initialPose)).tailRotation =
      (animateIdle t2 initialPose).tailRotation :=
  ⟨rfl, rfl⟩

/-- Witness for C1: the no-drift property instantiated at the concrete
times `t1 = 0 < 1 = t2`. -/
theorem animateIdle_no_drift_witness :
    (0 : ℝ) < 1 ∧
    ((animateIdle 1 (animateIdle 0 initialPose)).bodyScale.y =
      (animateIdle 1 initialPose).bodyScale.y ∧
     (animateIdle 1 (animateIdle 0 initialPose)).tailRotation =
      (animateIdle 1 initialPose).tailRotation) :=
  ⟨zero_lt_one, animateIdle_no_drift 0 1 zero_lt_one⟩

/-- C5: starting from any figure state, `animateSit(); animateStand();
animateSit()` leaves the figure in exactly the same state as a single
`animateSit()` call — both poses are idempotent one-shot settings with no
hidden accumulated state. -/
theorem sit_stand_sit_same_as_sit (s : PoseState) :
    animateSit (animateStand (animateSit s)) = animateSit s :=
  rfl

/-- C9: for every elapsed-time value `t` (negative and zero included) and
any figure state, `animateIdle(t)` sets the body's vertical scale to
`0.8 + 0.01 * sin (2 * t)`, which lies within `[0.79, 0.81]`. -/
theorem animateIdle_scale_formula_and_bounds (t : ℝ) (s : PoseState) :
    (animateIdle t s).bodyScale.y = 0.8 + 0.01 * Real.sin (2 * t) ∧
    0.79 ≤ (animateIdle t s).bodyScale.y ∧
    (animateIdle t s).bodyScale.y ≤ 0.81 := by
  have hle : Real.sin (t * 2) ≤ 1 := Real.sin_le_one _
  have hge : -1 ≤ Real.sin (t * 2) := Real.neg_one_le_sin _
  have heq : (animateIdle t s).bodyScale.y =
      0.8 + Real.sin (t * 2) * 0.01 := rfl
  refine ⟨?_, ?_, ?_⟩
  · rw [heq, mul_comm t 2]; ring
  · rw [heq]; linarith
  · rw [heq]; linarith

/-- C10: every pose-mode value other than `sit` and `stand` — `idle`
included — is handled by the `updateAnimation` switch without failure and
applies the default standing one-shot pose, exactly the `stand` update; in
particular the switch itself produces no breathing (the body scale and
tail rotation are untouched), which only the caller's per-frame
`animateIdle` calls provide. -/
theorem updateAnimation_defaults_to_stand (mode : String) (s : PoseState)
    (h1 : mode ≠ "sit") (h2 : mode ≠ "stand") :
    updateAnimation mode s = animateStand s ∧
    (updateAnimation mode s).bodyScale = s.bodyScale ∧
    (updateAnimation mode s).tailRotation = s.tailRotation := by
  unfold updateAnimation
  rw [if_neg h1, if_neg h2]
  exact ⟨rfl, rfl, rfl⟩

/-- Witness for C10: the fallback at the concrete unrecognized-for-the-
switch value `"idle"` and the fresh figure pose. -/
theorem updateAnimation_defaults_to_stand_witness :
    ("idle" ≠ "sit" ∧ "idle" ≠ "stand") ∧
    (updateAnimation "idle" initialPose = animateStand initialPose ∧
     (updateAnimation "idle" initialPose).bodyScale =
       initialPose.bodyScale ∧
     (updateAnimation "idle" initialPose).tailRotation =
       initialPose.tailRotation) :=
  ⟨⟨by decide, by decide⟩,
   updateAnimation_defaults_to_stand "idle" initialPose (by decide)
     (by decide)⟩

/-- C3: for every color value `c`, `setFurColor(c)` sets the base color of
the shared black-fur material instance to `c`, leaves every other material
instance (white fur, eye, nose, inner ear, whisker, pupil) entirely
unchanged, and leaves every segment — in particular its material
reference — unchanged, so only black-fur-role segments change rendered
color. -/
theorem setFurColor_changes_only_black_fur (c : ℕ) :
    ((setFurColor c builtCat).materials.get? blackFurId).map Material.color
      = some c ∧
    (∀ j, j ≠ blackFurId →
      (setFurColor c builtCat).materials.get? j =
        builtCat.materials.get? j) ∧
    (setFurColor c builtCat).segments = builtCat.segments := by
  refine ⟨rfl, ?_, rfl⟩
  intro j hj
  exact List.get?_set_ne _ _ (fun h => hj h.symm)

/-- C4: for either flag value, `toggleWireframe(enabled)` assigns the
wireframe flag of exactly the black-fur and white-fur materials to
`enabled` and leaves every other material instance (eye, nose, inner ear,
whisker, pupil) — including its wireframe flag — untouched; segments are
unchanged. -/
theorem toggleWireframe_exactly_fur_materials (enabled : Bool) :
    ((toggleWireframe enabled builtCat).materials.get? blackFurId).map
        Material.wireframe = some enabled ∧
    ((toggleWireframe enabled builtCat).materials.get? whiteFurId).map
        Material.wireframe = some enabled ∧
    (∀ j, j ≠ blackFurId → j ≠ whiteFurId →
      (toggleWireframe enabled builtCat).materials.get? j =
        builtCat.materials.get? j) ∧
    (toggleWireframe enabled builtCat).segments = builtCat.segments := by
  refine ⟨rfl, rfl, ?_, rfl⟩
  intro j hj1 hj2
  calc ((builtCat.materials.set blackFurId _).set whiteFurId _).get? j
      = (builtCat.materials.set blackFurId _).get? j :=
        List.get?_set_ne _ _ (fun h => hj2 h.symm)
    _ = builtCat.materials.get? j :=
        List.get?_set_ne _ _ (fun h => hj1 h.symm)

/-- C2: figure construction creates exactly one material instance for each
of the six roles (indices 0–5, created once by `createMaterials`; the only
further instance ever created is the anonymous pupil material, index 6,
which belongs to none of the six roles), and every segment of a given fur
role references that single shared instance — all nine black-fur segments
hold reference `blackFurId` and all seven white-fur segments hold
reference `whiteFurId` (and likewise for the eye, nose, inner-ear and
whisker roles). -/
theorem materials_one_instance_per_role_shared :
    builtCat.materials.length = 7 ∧
    ([blackFurId, whiteFurId, eyeId, noseId, innerEarId,
      whiskerId] : List ℕ).Nodup ∧
    (builtCat.segments.map fun s => (s.name, s.materialId)) =
      [("body", blackFurId), ("chest", whiteFurId),
       ("head", blackFurId), ("snout", whiteFurId),
       ("blaze", whiteFurId), ("leftEar", blackFurId),
       ("leftInnerEar", innerEarId), ("rightEar", blackFurId),
       ("rightInnerEar", innerEarId), ("frontLeftLeg", blackFurId),
       ("frontRightLeg", blackFurId), ("backLeftLeg", blackFurId),
       ("backRightLeg", blackFurId), ("pawFrontLeft", whiteFurId),
       ("pawFrontRight", whiteFurId), ("pawBackLeft", whiteFurId),
       ("pawBackRight", whiteFurId), ("tail", blackFurId),
       ("tailTip", whiteFurId), ("leftEye", eyeId),
       ("leftPupil", pupilMaterialId), ("rightEye", eyeId),
       ("rightPupil", pupilMaterialId), ("nose", noseId),
       ("whiskers", whiskerId)] :=
  ⟨rfl, by decide, rfl⟩

/-- C6: the right ear produced by mirroring the left ear shares the left
ear's geometry and material references, its position is the exact
sign-reflection of the left ear's on the mirrored x axis (y and z equal),
its rotation is the exact sign-reflection about that mirror plane (x pitch
equal, y and z negated), and overwriting the right ear's transform
afterwards never changes the left ear's segment — each twin owns an
independent transform. -/
theorem mirrored_ear_reflection_and_independence (tr : Transform) :
    ∃ leftSeg rightSeg : Segment,
      builtCat.segments.get? 5 = some leftSeg ∧
      builtCat.segments.get? 7 = some rightSeg ∧
      leftSeg.name = "leftEar" ∧ rightSeg.name = "rightEar" ∧
      rightSeg.geometryId = leftSeg.geometryId ∧
      rightSeg.materialId = leftSeg.materialId ∧
      rightSeg.transform.position.x = -leftSeg.transform.position.x ∧
      rightSeg.transform.position.y = leftSeg.transform.position.y ∧
      rightSeg.transform.position.z = leftSeg.transform.position.z ∧
      rightSeg.transform.rotation.x = leftSeg.transform.rotation.x ∧
      rightSeg.transform.rotation.y = -leftSeg.transform.rotation.y ∧
      rightSeg.transform.rotation.z = -leftSeg.transform.rotation.z ∧
      (setSegmentTransform 7 tr builtCat).segments.get? 5 =
        builtCat.segments.get? 5 := by
  refine ⟨{ name := "leftEar", geometryId := 5, materialId := blackFurId
            transform := { position := ⟨-0.25, 1.25, 1.15⟩
                           rotation := ⟨0.2, 0, -0.4⟩
                           scale := ⟨1, 1, 1⟩ }
            castShadow := true, receiveShadow := true },
          { name := "rightEar", geometryId := 5, materialId := blackFurId
            transform := { position := ⟨0.25, 1.25, 1.15⟩
                           rotation := ⟨0.2, 0, 0.4⟩
                           scale := ⟨1, 1, 1⟩ }
            castShadow := true, receiveShadow := true },
          rfl, rfl, rfl, rfl, rfl, rfl, ?_, rfl, rfl, rfl, ?_, ?_, ?_⟩
  · norm_num
  · norm_num
  · norm_num
  · exact List.get?_set_ne _ _ (by omega)

/-- Every tangent produced by the guarded sweep is nonzero: the guard
replaces a zero-length difference by the nonzero default axis. -/
theorem sweepTangents_nonzero (l : List (Vec3 ℚ)) :
    ∀ d ∈ sweepTangents l, d ≠ (⟨0, 0, 0⟩ : Vec3 ℚ) := by
  induction l with
  | nil => simp [sweepTangents]
  | cons a t ih =>
    cases t with
    | nil => simp [sweepTangents]
    | cons b rest =>
      intro d hd
      rw [show sweepTangents (a :: b :: rest) =
            segTangent a b :: sweepTangents (b :: rest) from rfl,
        List.mem_cons] at hd
      rcases hd with h | h
      · subst h
        unfold segTangent fallbackTangent
        by_cases hz :
            (⟨b.x - a.x, b.y - a.y, b.z - a.z⟩ : Vec3 ℚ) = ⟨0, 0, 0⟩
        · simp only [hz, if_true, ite_true]
          decide
        · simp only [hz, if_false, ite_false]
          exact hz
      · exact ih d h

/-- C8: for every list of at least two control points — degenerate inputs
with duplicate or collinear points included — the tube-sweep routine
terminates and returns a geometry, never failing: wherever a step tangent
is zero-length it falls back to the deterministic default direction, so
every frame tangent of the result is nonzero. -/
theorem tubeSweep_total_on_valid_input (pts : List (Vec3 ℚ)) (radius : ℚ)
    (h : 2 ≤ pts.length) :
    ∃ g : SweptTube, tubeSweep pts radius = some g ∧
      g.centerline = pts ∧
      ∀ d ∈ g.tangents, d ≠ (⟨0, 0, 0⟩ : Vec3 ℚ) := by
  refine ⟨{ centerline := pts, tangents := sweepTangents pts
            radius := radius }, ?_, rfl, sweepTangents_nonzero pts⟩
  unfold tubeSweep
  rw [if_neg (by omega)]

/-- Witness for C8: the sweep at a fully degenerate concrete input — three
copies of the same control point, so every step tangent is zero-length and
the fallback fires — still returns a geometry with nonzero tangents. -/
theorem tubeSweep_total_on_valid_input_witness :
    2 ≤ ([⟨0, 0, 0⟩, ⟨0, 0, 0⟩, ⟨0, 0, 0⟩] : List (Vec3 ℚ)).length ∧
    ∃ g : SweptTube,
      tubeSweep [⟨0, 0, 0⟩, ⟨0, 0, 0⟩, ⟨0, 0, 0⟩] (9 / 100) = some g ∧
      g.centerline = [⟨0, 0, 0⟩, ⟨0, 0, 0⟩, ⟨0, 0, 0⟩] ∧
      ∀ d ∈ g.tangents, d ≠ (⟨0, 0, 0⟩ : Vec3 ℚ) :=
  ⟨by decide,
   tubeSweep_total_on_valid_input [⟨0, 0, 0⟩, ⟨0, 0, 0⟩, ⟨0, 0, 0⟩]
     (9 / 100) (by decide)⟩

/-- Evaluating the three.js cubic at parameter 0 yields the segment's
first endpoint, whatever the tangents. -/
theorem cubicCalc_zero (x0 x1 t0 t1 : ℝ) : cubicCalc x0 x1 t0 t1 0 = x0 := by
  unfold cubicCalc; ring

/-- Evaluating the three.js cubic at parameter 1 yields the segment's
second endpoint: the tangent contributions cancel. -/
theorem cubicCalc_one (x0 x1 t0 t1 : ℝ) : cubicCalc x0 x1 t0 t1 1 = x1 := by
  unfold cubicCalc; ring

/-- The tube geometry the builder constructs for the front-leg control
points and radius 0.09 is not closed: the source passes `false` for
`TubeGeometry`'s `closed` parameter, so the tube is open-ended. -/
theorem createSplineTube_not_closed :
    ¬ ((createSplineTube legPointsFront 0.09 12 32).closed = true) := by
  decide

/-- The curve-tube builder, given the control points
`[(0,0,0), (0,-0.25,0.05), (0,-0.45,0)]` and radius 0.09, produces an open
(`closed` flag `false`) tube swept along the Catmull-Rom curve over those
points, and that centerline passes through all three control points — at
curve parameters 0, 1/2 and 1 it interpolates them exactly. -/
theorem splineTube_open_and_interpolates :
    (createSplineTube legPointsFront 0.09 12 32).closed = false ∧
    (createSplineTube legPointsFront 0.09 12 32).curvePoints =
      legPointsFront ∧
    (createSplineTube legPointsFront 0.09 12 32).radius = 0.09 ∧
    getPointCR legPointsFront 0 = ⟨0, 0, 0⟩ ∧
    getPointCR legPointsFront (1 / 2) = ⟨0, -0.25, 0.05⟩ ∧
    getPointCR legPointsFront 1 = ⟨0, -0.45, 0⟩ := by
  refine ⟨rfl, rfl, rfl, ?_, ?_, ?_⟩
  · norm_num [getPointCR, legPointsFront, cubicCalc_zero, cubicCalc_one,
      Vec3.mk.injEq, List.getD_cons_zero, List.getD_cons_succ]
  · norm_num [getPointCR, legPointsFront, cubicCalc_zero, cubicCalc_one,
      Vec3.mk.injEq, List.getD_cons_zero, List.getD_cons_succ]
  · have h2 : (2 : ℤ).toNat = 2 := rfl
    norm_num [getPointCR, legPointsFront, cubicCalc_zero, cubicCalc_one,
      Vec3.mk.injEq, List.getD_cons_zero, List.getD_cons_succ, h2]

end CatModelSpec
